import Mathlib

/-!
# Protocentral MAX30102 pulse-oximeter driver

A shallow embedding of `Software/Arduino/Protocentral_MAX30102.{h,cpp}`.

The two-wire bus and the chip behind it are modelled as a register file in which
writes persist: a single-byte write stores the byte at the addressed register, a
single-byte read returns the byte stored there.  A multi-byte request is answered
with the bytes the slave has queued (`rx`).  Every transaction is appended to a
log, so that the order of the bus traffic can be stated.

Machine integers: `uint8_t` is a natural number reduced mod 256, `int` is the
16-bit two's-complement integer of the AVR targets, `long` is 32-bit.
-/

namespace MAX30100

/-! ## Register map (`Protocentral_MAX30102.h`) -/

def MAX30100_INT_STATUS1 : Nat := 0x00
def MAX30100_INT_STATUS2 : Nat := 0x01
def MAX30100_INT_ENABLE1 : Nat := 0x02
def MAX30100_INT_ENABLE2 : Nat := 0x03
def MAX30100_FIFO_WR_PTR : Nat := 0x04
def MAX30100_OVRFLOW_CTR : Nat := 0x05
def MAX30100_FIFO_RD_PTR : Nat := 0x06
def MAX30100_FIFO_DATA : Nat := 0x07
def MAX30100_FIFO_CONFIG : Nat := 0x08
def MAX30100_MODE_CONFIG : Nat := 0x09
def MAX30100_SPO2_CONFIG : Nat := 0x0A
def MAX30100_LED1_AMP : Nat := 0x0C
def MAX30100_LED2_AMP : Nat := 0x0D
def MAX30100_PILOT : Nat := 0x10
def MAX30100_REV_ID : Nat := 0xFE
def MAX30100_PART_ID : Nat := 0xFF
def MAX30100_ADDRESS : Nat := 0x57

/-! ## Enumerations -/

/-- LED pulse width, `typedef enum { pw200, pw400, pw800, pw1600 } pulseWidth`. -/
inductive pulseWidth
  | pw200 | pw400 | pw800 | pw1600
  deriving DecidableEq, Repr

/-- Integer value of a `pulseWidth` enumerator. -/
def pulseWidth.toNat : pulseWidth → Nat
  | .pw200 => 0
  | .pw400 => 1
  | .pw800 => 2
  | .pw1600 => 3

/-- Sample rate, `typedef enum { sr50, ..., sr1000 } sampleRate`. -/
inductive sampleRate
  | sr50 | sr100 | sr167 | sr200 | sr400 | sr600 | sr800 | sr1000
  deriving DecidableEq, Repr

/-- Integer value of a `sampleRate` enumerator. -/
def sampleRate.toNat : sampleRate → Nat
  | .sr50 => 0
  | .sr100 => 1
  | .sr167 => 2
  | .sr200 => 3
  | .sr400 => 4
  | .sr600 => 5
  | .sr800 => 6
  | .sr1000 => 7

/-- LED current, `typedef enum { i0, i4, ..., i50 } ledCurrent`. -/
inductive ledCurrent
  | i0 | i4 | i8 | i11 | i14 | i17 | i21 | i27 | i31 | i34 | i37 | i40 | i44 | i47 | i50
  deriving DecidableEq, Repr

/-- Integer value of a `ledCurrent` enumerator. -/
def ledCurrent.toNat : ledCurrent → Nat
  | .i0 => 0
  | .i4 => 1
  | .i8 => 2
  | .i11 => 3
  | .i14 => 4
  | .i17 => 5
  | .i21 => 6
  | .i27 => 7
  | .i31 => 8
  | .i34 => 9
  | .i37 => 10
  | .i40 => 11
  | .i44 => 12
  | .i47 => 13
  | .i50 => 14

/-! ## Machine integers -/

/-- Conversion to `uint8_t`. -/
def toUInt8 (n : Nat) : Nat := n % 256

/-- Conversion to the 16-bit two's-complement `int`. -/
def toInt16 (x : Int) : Int := (x + 32768) % 65536 - 32768

/-- Conversion of a non-negative bit pattern to the 32-bit two's-complement `long`. -/
def toLong (n : Nat) : Int :=
  if n % 4294967296 < 2147483648 then ((n % 4294967296 : Nat) : Int)
  else ((n % 4294967296 : Nat) : Int) - 4294967296

/-- The Arduino `abs(x)`, `((x)>0?(x):-(x))`, on `int`. -/
def abs (x : Int) : Int := if x > 0 then x else toInt16 (-x)

/-! ## Bus and driver state -/

/-- One transaction on the two-wire bus. -/
inductive Txn
  | write (address subAddress data : Nat)
  | read (address subAddress : Nat)
  | readBytes (address subAddress count : Nat)
  deriving DecidableEq, Repr

/-- The driver object together with the device it talks to. -/
structure State where
  /-- Register file of the device, indexed by register address. -/
  regs : Nat → Nat
  /-- Bytes the device has queued for the next multi-byte request. -/
  rx : List Nat
  /-- Bus transactions issued so far, oldest first. -/
  log : List Txn
  /-- Member `long IR`. -/
  IR : Int
  /-- Member `long RED`. -/
  RED : Int

/-- The write transactions of a log, as (register, data) pairs, in order. -/
def writesOf : List Txn → List (Nat × Nat)
  | [] => []
  | .write _ sub d :: t => (sub, d) :: writesOf t
  | _ :: t => writesOf t

/-! ## Bus primitives (`I2CwriteByte`, `I2CreadByte`, `I2CreadBytes`) -/

/-- Bus primitive `I2CwriteByte(address, subAddress, data)`: one register write. -/
def I2CwriteByte (s : State) (address subAddress data : Nat) : State :=
  { s with
    regs := fun a => if a = toUInt8 subAddress then toUInt8 data else s.regs a
    log := s.log ++ [Txn.write (toUInt8 address) (toUInt8 subAddress) (toUInt8 data)] }

/-- Bus primitive `I2CreadByte(address, subAddress)`: one register read, returning the
byte. -/
def I2CreadByte (s : State) (address subAddress : Nat) : Nat × State :=
  (toUInt8 (s.regs (toUInt8 subAddress)),
   { s with log := s.log ++ [Txn.read (toUInt8 address) (toUInt8 subAddress)] })

/-- The loop `while (Wire.available()) dest[i++] = Wire.read();`. -/
def fillDest : List Nat → List Nat → Nat → List Nat
  | dest, [], _ => dest
  | dest, b :: bs, i => fillDest (dest.set i (toUInt8 b)) bs (i + 1)

/-- Bus primitive `I2CreadBytes(address, subAddress, dest, count)`: the device answers a request
for `count` bytes with at most `count` of its queued bytes, which are stored into
`dest` from index 0 on. -/
def I2CreadBytes (s : State) (address subAddress : Nat) (dest : List Nat) (count : Nat) :
    List Nat × State :=
  (fillDest dest (s.rx.take (toUInt8 count)) 0,
   { s with
     rx := s.rx.drop (toUInt8 count)
     log := s.log ++ [Txn.readBytes (toUInt8 address) (toUInt8 subAddress) (toUInt8 count)] })

/-! ## Driver methods (`Protocentral_MAX30102.cpp`) -/

/-- Method `MAX30100::setLEDs` of the driver. -/
def setLEDs (s : State) (pw : pulseWidth) (_red _ir : ledCurrent) : State :=
  let (reg, s1) := I2CreadByte s MAX30100_ADDRESS MAX30100_SPO2_CONFIG
  let reg := toUInt8 (reg &&& 0xFC)
  I2CwriteByte s1 MAX30100_ADDRESS MAX30100_SPO2_CONFIG (reg ||| pw.toNat)

/-- Method `MAX30100::setSPO2` of the driver. -/
def setSPO2 (s : State) (sr : sampleRate) : State :=
  let (reg, s1) := I2CreadByte s MAX30100_ADDRESS MAX30100_SPO2_CONFIG
  let reg := toUInt8 (reg &&& 0xE3)
  let s2 := I2CwriteByte s1 MAX30100_ADDRESS MAX30100_SPO2_CONFIG (reg ||| (sr.toNat <<< 2))
  let (reg, s3) := I2CreadByte s2 MAX30100_ADDRESS MAX30100_MODE_CONFIG
  let reg := toUInt8 (reg &&& 0xf8)
  I2CwriteByte s3 MAX30100_ADDRESS MAX30100_SPO2_CONFIG (reg ||| 0x03)

/-- Method `MAX30100::getNumSamp` of the driver. -/
def getNumSamp (s : State) : Int × State :=
  let (wrPtr, s1) := I2CreadByte s MAX30100_ADDRESS MAX30100_FIFO_WR_PTR
  let (rdPtr, s2) := I2CreadByte s1 MAX30100_ADDRESS MAX30100_FIFO_RD_PTR
  (Int.tmod (abs (toInt16 (toInt16 (16 + (wrPtr : Int)) - (rdPtr : Int)))) 16, s2)

/-- Method `MAX30100::readSensor` of the driver. -/
def readSensor (s : State) : State :=
  let temp := [0, 0, 0, 0, 0, 0]
  let (temp, s1) := I2CreadBytes s MAX30100_ADDRESS MAX30100_FIFO_DATA temp 6
  { s1 with
    IR := toLong ((((temp.getD 0 0) &&& 0x03) <<< 16) ||| ((temp.getD 1 0) <<< 8)
            ||| (temp.getD 2 0))
    RED := toLong ((((temp.getD 3 0) &&& 0x03) <<< 16) ||| ((temp.getD 4 0) <<< 8)
            ||| (temp.getD 5 0)) }

/-- Method `MAX30100::shutdown` of the driver. -/
def shutdown (s : State) : State :=
  let (reg, s1) := I2CreadByte s MAX30100_ADDRESS MAX30100_MODE_CONFIG
  I2CwriteByte s1 MAX30100_ADDRESS MAX30100_MODE_CONFIG (reg ||| 0x80)

/-- Method `MAX30100::reset` of the driver. -/
def reset (s : State) : State :=
  let (reg, s1) := I2CreadByte s MAX30100_ADDRESS MAX30100_MODE_CONFIG
  I2CwriteByte s1 MAX30100_ADDRESS MAX30100_MODE_CONFIG (reg ||| 0x40)

/-- Method `MAX30100::startup` of the driver. -/
def startup (s : State) : State :=
  let (reg, s1) := I2CreadByte s MAX30100_ADDRESS MAX30100_MODE_CONFIG
  I2CwriteByte s1 MAX30100_ADDRESS MAX30100_MODE_CONFIG (reg &&& 0x7F)

/-- Method `MAX30100::begin` of the driver. -/
def begin (s : State) (_pw : pulseWidth) (_ir : ledCurrent) (_sr : sampleRate) : State :=
  let s := I2CwriteByte s MAX30100_ADDRESS MAX30100_INT_ENABLE1 0xc0
  let s := I2CwriteByte s MAX30100_ADDRESS MAX30100_INT_ENABLE2 0x00
  let s := I2CwriteByte s MAX30100_ADDRESS MAX30100_FIFO_WR_PTR 0x00
  let s := I2CwriteByte s MAX30100_ADDRESS MAX30100_OVRFLOW_CTR 0x00
  let s := I2CwriteByte s MAX30100_ADDRESS MAX30100_FIFO_RD_PTR 0x00
  let s := I2CwriteByte s MAX30100_ADDRESS MAX30100_FIFO_CONFIG 0x00
  let s := I2CwriteByte s MAX30100_ADDRESS MAX30100_MODE_CONFIG 0x03
  let s := I2CwriteByte s MAX30100_ADDRESS MAX30100_SPO2_CONFIG 0x07
  let s := I2CwriteByte s MAX30100_ADDRESS MAX30100_LED1_AMP 0x24
  let s := I2CwriteByte s MAX30100_ADDRESS MAX30100_LED2_AMP 0x24
  s

/-! ## Sample states used in the concrete checks -/

/-- A device whose every register holds zero, with nothing queued and an empty log. -/
def zeroState : State :=
  { regs := fun _ => 0, rx := [], log := [], IR := 0, RED := 0 }

/-- The state `s` with register `a` holding `v`. -/
def withReg (s : State) (a v : Nat) : State :=
  { s with regs := fun x => if x = a then v else s.regs x }

/-- A device that has the burst `[0x02, 0xAB, 0xCD, 0x01, 0x23, 0x45]` queued, with stale
samples `IR = 7`, `RED = 9` in the driver object. -/
def burstState : State :=
  { regs := fun _ => 0, rx := [0x02, 0xAB, 0xCD, 0x01, 0x23, 0x45], log := [], IR := 7, RED := 9 }

/-- The transactions appended to the log between two points of a run. -/
def issuedBy (before after : List Txn) : List Txn := after.drop before.length

/-! ## Auxiliary facts -/

theorem toInt16_of_range (x : Int) (h1 : -32768 ≤ x) (h2 : x < 32768) : toInt16 x = x := by
  unfold toInt16
  omega

theorem toLong_of_lt (n : Nat) (h : n < 2147483648) : toLong n = (n : Int) := by
  unfold toLong
  have h1 : n % 4294967296 = n := Nat.mod_eq_of_lt (by omega)
  rw [h1, if_pos h]

theorem getNumSamp_fst (s : State) :
    (getNumSamp s).1 =
      |16 + ((s.regs MAX30100_FIFO_WR_PTR % 256 : Nat) : Int)
          - ((s.regs MAX30100_FIFO_RD_PTR % 256 : Nat) : Int)| % 16 := by
  have hw : s.regs MAX30100_FIFO_WR_PTR % 256 < 256 := Nat.mod_lt _ (by decide)
  have hr : s.regs MAX30100_FIFO_RD_PTR % 256 < 256 := Nat.mod_lt _ (by decide)
  have e : (getNumSamp s).1 =
      Int.tmod (abs (toInt16 (toInt16 (16 + ((s.regs MAX30100_FIFO_WR_PTR % 256 : Nat) : Int))
        - ((s.regs MAX30100_FIFO_RD_PTR % 256 : Nat) : Int)))) 16 := by
    simp only [getNumSamp, I2CreadByte, toUInt8, MAX30100_FIFO_WR_PTR, MAX30100_FIFO_RD_PTR,
      Nat.reduceMod]
  rw [e, toInt16_of_range (16 + _) (by omega) (by omega),
    toInt16_of_range _ (by omega) (by omega)]
  unfold abs
  split
  · rename_i hpos
    rw [Int.tmod_eq_emod (by omega) (by decide), abs_of_pos hpos]
  · rename_i hneg
    rw [toInt16_of_range _ (by omega) (by omega), Int.tmod_eq_emod (by omega) (by decide),
      abs_of_nonpos (by omega)]

theorem issuedBy_append (l m : List Txn) : issuedBy l (l ++ m) = m := by
  unfold issuedBy
  induction l with
  | nil => rfl
  | cons a t ih => simp

theorem pulseWidth_toNat_lt (pw : pulseWidth) : pw.toNat < 4 := by
  cases pw <;> decide

theorem sampleRate_toNat_lt (sr : sampleRate) : sr.toNat < 8 := by
  cases sr <;> decide

set_option maxRecDepth 100000 in
theorem pw_field_bits : ∀ r : Fin 256, ∀ p : Fin 4,
    ((r.val % 256 &&& 0xFC) % 256 ||| p.val) % 256 = (r.val &&& 0xFC) ||| p.val ∧
    ((r.val &&& 0xFC) ||| p.val) >>> 2 = r.val >>> 2 ∧
    ((r.val &&& 0xFC) ||| p.val) &&& 0x03 = p.val := by
  decide

set_option maxRecDepth 100000 in
theorem shdn_bits : ∀ m : Fin 256,
    (((m.val % 256 ||| 0x80) % 256) % 256 &&& 0x7F) % 256 = m.val &&& 0x7F ∧
    (m.val &&& 0x7F) % 128 = m.val % 128 ∧
    (m.val &&& 0x7F) / 128 = 0 := by
  decide

set_option maxRecDepth 100000 in
theorem mode_field_bits : ∀ m : Fin 256,
    ((m.val % 256 &&& 0xf8) % 256 ||| 0x03) % 256 = (m.val &&& 0xF8) ||| 0x03 := by
  decide

theorem setLEDs_regs (s : State) (pw : pulseWidth) (red ir : ledCurrent) (a : Nat) :
    (setLEDs s pw red ir).regs a =
      if a = 0x0A then ((s.regs 0x0A % 256 &&& 0xFC) % 256 ||| pw.toNat) % 256
      else s.regs a := by
  simp only [setLEDs, I2CreadByte, I2CwriteByte, toUInt8, MAX30100_SPO2_CONFIG, Nat.reduceMod]

theorem setLEDs_log (s : State) (pw : pulseWidth) (red ir : ledCurrent) :
    (setLEDs s pw red ir).log = s.log ++
      [Txn.read 0x57 0x0A,
       Txn.write 0x57 0x0A (((s.regs 0x0A % 256 &&& 0xFC) % 256 ||| pw.toNat) % 256)] := by
  simp only [setLEDs, I2CreadByte, I2CwriteByte, toUInt8, MAX30100_SPO2_CONFIG,
    MAX30100_ADDRESS, Nat.reduceMod, List.append_assoc, List.singleton_append]

theorem shutdown_startup_regs (s : State) (a : Nat) :
    (startup (shutdown s)).regs a =
      if a = 0x09 then (((s.regs 0x09 % 256 ||| 0x80) % 256) % 256 &&& 0x7F) % 256
      else s.regs a := by
  simp only [startup, shutdown, I2CreadByte, I2CwriteByte, toUInt8, MAX30100_MODE_CONFIG,
    Nat.reduceMod, if_true]
  split <;> rfl

theorem setSPO2_regs (s : State) (sr : sampleRate) (a : Nat) :
    (setSPO2 s sr).regs a =
      if a = 0x0A then ((s.regs 0x09 % 256 &&& 0xf8) % 256 ||| 0x03) % 256
      else s.regs a := by
  simp only [setSPO2, I2CreadByte, I2CwriteByte, toUInt8, MAX30100_SPO2_CONFIG,
    MAX30100_MODE_CONFIG, Nat.reduceMod]
  split
  · simp
  · rfl

theorem setSPO2_log (s : State) (sr : sampleRate) :
    (setSPO2 s sr).log = s.log ++
      [Txn.read 0x57 0x0A,
       Txn.write 0x57 0x0A (((s.regs 0x0A % 256 &&& 0xE3) % 256 ||| (sr.toNat <<< 2)) % 256),
       Txn.read 0x57 0x09,
       Txn.write 0x57 0x0A (((s.regs 0x09 % 256 &&& 0xf8) % 256 ||| 0x03) % 256)] := by
  simp [setSPO2, I2CreadByte, I2CwriteByte, toUInt8, MAX30100_SPO2_CONFIG,
    MAX30100_MODE_CONFIG, MAX30100_ADDRESS]

theorem begin_regs (s : State) (pw : pulseWidth) (ir : ledCurrent) (sr : sampleRate)
    (a : Nat) :
    (begin s pw ir sr).regs a =
      if a = 0x0D then 0x24 else if a = 0x0C then 0x24 else if a = 0x0A then 0x07
      else if a = 0x09 then 0x03 else if a = 0x08 then 0x00 else if a = 0x06 then 0x00
      else if a = 0x05 then 0x00 else if a = 0x04 then 0x00 else if a = 0x03 then 0x00
      else if a = 0x02 then 0xC0 else s.regs a := by
  simp only [begin, I2CwriteByte, toUInt8, MAX30100_INT_ENABLE1, MAX30100_INT_ENABLE2,
    MAX30100_FIFO_WR_PTR, MAX30100_OVRFLOW_CTR, MAX30100_FIFO_RD_PTR, MAX30100_FIFO_CONFIG,
    MAX30100_MODE_CONFIG, MAX30100_SPO2_CONFIG, MAX30100_LED1_AMP, MAX30100_LED2_AMP,
    Nat.reduceMod]

theorem begin_log (s : State) (pw : pulseWidth) (ir : ledCurrent) (sr : sampleRate) :
    (begin s pw ir sr).log = s.log ++
      [Txn.write 0x57 0x02 0xC0, Txn.write 0x57 0x03 0x00, Txn.write 0x57 0x04 0x00,
       Txn.write 0x57 0x05 0x00, Txn.write 0x57 0x06 0x00, Txn.write 0x57 0x08 0x00,
       Txn.write 0x57 0x09 0x03, Txn.write 0x57 0x0A 0x07, Txn.write 0x57 0x0C 0x24,
       Txn.write 0x57 0x0D 0x24] := by
  simp [begin, I2CwriteByte, toUInt8, MAX30100_INT_ENABLE1, MAX30100_INT_ENABLE2,
    MAX30100_FIFO_WR_PTR, MAX30100_OVRFLOW_CTR, MAX30100_FIFO_RD_PTR, MAX30100_FIFO_CONFIG,
    MAX30100_MODE_CONFIG, MAX30100_SPO2_CONFIG, MAX30100_LED1_AMP, MAX30100_LED2_AMP,
    MAX30100_ADDRESS]

theorem sample_lt (b0 b1 b2 : Nat) (h1 : b1 < 256) (h2 : b2 < 256) :
    (((b0 &&& 0x03) <<< 16) ||| (b1 <<< 8) ||| b2) < 2 ^ 18 := by
  have a : b0 &&& 3 ≤ 3 := Nat.and_le_right
  apply Nat.or_lt_two_pow
  · apply Nat.or_lt_two_pow
    · rw [Nat.shiftLeft_eq]; omega
    · rw [Nat.shiftLeft_eq]; omega
  · omega

theorem readSensor_fields (s : State) (b0 b1 b2 b3 b4 b5 : Nat)
    (hrx : s.rx.take 6 = [b0, b1, b2, b3, b4, b5]) :
    (readSensor s).IR =
      toLong ((((b0 % 256) &&& 0x03) <<< 16) ||| ((b1 % 256) <<< 8) ||| (b2 % 256)) ∧
    (readSensor s).RED =
      toLong ((((b3 % 256) &&& 0x03) <<< 16) ||| ((b4 % 256) <<< 8) ||| (b5 % 256)) := by
  simp [readSensor, I2CreadBytes, toUInt8, hrx, fillDest]

/-! ## FIFO occupancy (`getNumSamp`) -/

/-- C1: when the write pointer `wr` and the read pointer `rd` are valid FIFO pointers
(both at most 15), `getNumSamp` returns a count `n` with `0 ≤ n ≤ 15` that equals
`(16 + wr - rd) mod 16`, and `n` is the unique value in `0..15` with
`(rd + n) mod 16 = wr`. -/
theorem getNumSamp_valid_pointers (s : State) (wr rd : Nat)
    (hw : s.regs MAX30100_FIFO_WR_PTR = wr) (hr : s.regs MAX30100_FIFO_RD_PTR = rd)
    (hwr : wr ≤ 15) (hrd : rd ≤ 15) :
    0 ≤ (getNumSamp s).1 ∧ (getNumSamp s).1 ≤ 15 ∧
    (getNumSamp s).1 = (16 + (wr : Int) - (rd : Int)) % 16 ∧
    ((rd : Int) + (getNumSamp s).1) % 16 = (wr : Int) ∧
    ∀ k : Int, 0 ≤ k → k ≤ 15 → ((rd : Int) + k) % 16 = (wr : Int) → k = (getNumSamp s).1 := by
  have e := getNumSamp_fst s
  rw [hw, hr, Nat.mod_eq_of_lt (by omega : wr < 256), Nat.mod_eq_of_lt (by omega : rd < 256),
    abs_of_pos (by omega)] at e
  rw [e]
  refine ⟨by omega, by omega, rfl, by omega, ?_⟩
  intro k h0 h15 hk
  omega

/-- C1, at the pointer pairs named in the specification: `wr = 5, rd = 2` gives 3,
`wr = 2, rd = 5` gives 13, and `wr = 0, rd = 0` gives 0. -/
theorem getNumSamp_valid_pointers_witness :
    (getNumSamp (withReg (withReg zeroState MAX30100_FIFO_WR_PTR 5) MAX30100_FIFO_RD_PTR 2)).1 = 3
    ∧ (getNumSamp
        (withReg (withReg zeroState MAX30100_FIFO_WR_PTR 2) MAX30100_FIFO_RD_PTR 5)).1 = 13
    ∧ (getNumSamp
        (withReg (withReg zeroState MAX30100_FIFO_WR_PTR 0) MAX30100_FIFO_RD_PTR 0)).1 = 0 :=
  ⟨(getNumSamp_valid_pointers _ 5 2 rfl rfl (by decide) (by decide)).2.2.1.trans (by decide),
   (getNumSamp_valid_pointers _ 2 5 rfl rfl (by decide) (by decide)).2.2.1.trans (by decide),
   (getNumSamp_valid_pointers _ 0 0 rfl rfl (by decide) (by decide)).2.2.1.trans (by decide)⟩

/-- C9: for all register bytes `wr`, `rd` (0..255) `getNumSamp` returns
`|16 + wr - rd| mod 16`, evaluated in 16-bit signed arithmetic without wrap-around, a
value in `0..15`; this is not modular subtraction: at `wr = 0`, `rd = 17` (where
`rd > wr + 16`) it returns 1 while `(wr - rd) mod 16` is 15. -/
theorem getNumSamp_abs_then_mod :
    (∀ (s : State) (wr rd : Nat),
      s.regs MAX30100_FIFO_WR_PTR = wr → s.regs MAX30100_FIFO_RD_PTR = rd →
      wr ≤ 255 → rd ≤ 255 →
      (getNumSamp s).1 = |16 + (wr : Int) - (rd : Int)| % 16 ∧
      0 ≤ (getNumSamp s).1 ∧ (getNumSamp s).1 ≤ 15) ∧
    ((17 : Nat) > 0 + 16 ∧
      (getNumSamp
        (withReg (withReg zeroState MAX30100_FIFO_WR_PTR 0) MAX30100_FIFO_RD_PTR 17)).1 = 1 ∧
      ((0 : Int) - 17) % 16 = 15 ∧
      (getNumSamp
        (withReg (withReg zeroState MAX30100_FIFO_WR_PTR 0) MAX30100_FIFO_RD_PTR 17)).1
        ≠ ((0 : Int) - 17) % 16) := by
  have gen : ∀ (s : State) (wr rd : Nat),
      s.regs MAX30100_FIFO_WR_PTR = wr → s.regs MAX30100_FIFO_RD_PTR = rd →
      wr ≤ 255 → rd ≤ 255 →
      (getNumSamp s).1 = |16 + (wr : Int) - (rd : Int)| % 16 ∧
      0 ≤ (getNumSamp s).1 ∧ (getNumSamp s).1 ≤ 15 := by
    intro s wr rd hw hr hwr hrd
    have e := getNumSamp_fst s
    rw [hw, hr, Nat.mod_eq_of_lt (by omega : wr < 256),
      Nat.mod_eq_of_lt (by omega : rd < 256)] at e
    rw [e]
    exact ⟨rfl, by omega, by omega⟩
  have v : (getNumSamp
      (withReg (withReg zeroState MAX30100_FIFO_WR_PTR 0) MAX30100_FIFO_RD_PTR 17)).1 = 1 :=
    (gen _ 0 17 rfl rfl (by decide) (by decide)).1.trans (by decide)
  refine ⟨gen, by decide, v, by decide, ?_⟩
  rw [v]
  decide

/-- C9 at the bytes `wr = 200`, `rd = 3`: the result is `|16 + 200 - 3| mod 16 = 5`. -/
theorem getNumSamp_abs_then_mod_witness :
    (getNumSamp
      (withReg (withReg zeroState MAX30100_FIFO_WR_PTR 200) MAX30100_FIFO_RD_PTR 3)).1 = 5 :=
  (getNumSamp_abs_then_mod.1 _ 200 3 rfl rfl (by decide) (by decide)).1.trans (by decide)

/-! ## Pulse-width field (`setLEDs`) -/

/-- C3: for every pulse width `pw`, every pair of LED currents and every prior byte `r`
of the SpO2-configuration register, after `setLEDs pw red ir` the register holds
`(r & 0xFC) | pw`: its upper six bits are those of `r` and its low two bits are `pw`. -/
theorem setLEDs_sets_pulse_width_field (s : State) (pw : pulseWidth) (red ir : ledCurrent)
    (r : Nat) (hr : s.regs MAX30100_SPO2_CONFIG = r) (hb : r < 256) :
    (setLEDs s pw red ir).regs MAX30100_SPO2_CONFIG = (r &&& 0xFC) ||| pw.toNat ∧
    (setLEDs s pw red ir).regs MAX30100_SPO2_CONFIG >>> 2 = r >>> 2 ∧
    (setLEDs s pw red ir).regs MAX30100_SPO2_CONFIG &&& 0x03 = pw.toNat := by
  have e := setLEDs_regs s pw red ir MAX30100_SPO2_CONFIG
  have hr' : s.regs 0x0A = r := hr
  rw [if_pos (show MAX30100_SPO2_CONFIG = 0x0A from rfl), hr'] at e
  have h := pw_field_bits ⟨r, hb⟩ ⟨pw.toNat, pulseWidth_toNat_lt pw⟩
  simp only at h
  rw [e, h.1]
  exact ⟨rfl, h.2.1, h.2.2⟩

/-- C3 at `r = 0xB7`, `pw = pw400`: the register ends as `0xB5`. -/
theorem setLEDs_sets_pulse_width_field_witness :
    (setLEDs (withReg zeroState MAX30100_SPO2_CONFIG 0xB7) pulseWidth.pw400
      ledCurrent.i50 ledCurrent.i27).regs MAX30100_SPO2_CONFIG = 0xB5 :=
  (setLEDs_sets_pulse_width_field _ pulseWidth.pw400 ledCurrent.i50 ledCurrent.i27 0xB7 rfl
    (by decide)).1.trans (by decide)

/-- C8: the LED-current arguments of `setLEDs` are dead.  Two calls that differ only in
the currents produce the same state (same registers, same bus log), the transactions
issued are one read and one write of the SpO2-configuration register, and every
register other than 0x0A keeps its value, among them the LED amplitude registers
0x0C and 0x0D. -/
theorem setLEDs_currents_dead (s : State) (pw : pulseWidth) (red ir red' ir' : ledCurrent) :
    setLEDs s pw red ir = setLEDs s pw red' ir' ∧
    issuedBy s.log (setLEDs s pw red ir).log =
      issuedBy s.log (setLEDs s pw red' ir').log ∧
    (writesOf (issuedBy s.log (setLEDs s pw red ir).log)).map Prod.fst
      = [MAX30100_SPO2_CONFIG] ∧
    (∀ a : Nat, a ≠ MAX30100_SPO2_CONFIG → (setLEDs s pw red ir).regs a = s.regs a) ∧
    (setLEDs s pw red ir).regs MAX30100_LED1_AMP = s.regs MAX30100_LED1_AMP ∧
    (setLEDs s pw red ir).regs MAX30100_LED2_AMP = s.regs MAX30100_LED2_AMP := by
  refine ⟨rfl, rfl, ?_, ?_, ?_, ?_⟩
  · rw [setLEDs_log, issuedBy_append]
    rfl
  · intro a ha
    rw [setLEDs_regs, if_neg (show ¬ a = 0x0A from ha)]
  · rw [setLEDs_regs, if_neg (by decide)]
  · rw [setLEDs_regs, if_neg (by decide)]

/-- C8 at register 0x0C holding `0x24`: it still holds `0x24` after `setLEDs`. -/
theorem setLEDs_currents_dead_witness :
    (setLEDs (withReg zeroState MAX30100_LED1_AMP 0x24) pulseWidth.pw1600
      ledCurrent.i50 ledCurrent.i0).regs MAX30100_LED1_AMP = 0x24 :=
  (setLEDs_currents_dead (withReg zeroState MAX30100_LED1_AMP 0x24) pulseWidth.pw1600
    ledCurrent.i50 ledCurrent.i0 ledCurrent.i4 ledCurrent.i8).2.2.2.1
    MAX30100_LED1_AMP (by decide)

/-! ## Power state (`shutdown`, `startup`) -/

/-- C5: for every prior byte `m` of the mode register, `shutdown` followed by `startup`
leaves the register holding `m & 0x7F`: bits 0-6 are those of `m` and bit 7 is clear. -/
theorem shutdown_startup_mode (s : State) (m : Nat)
    (hm : s.regs MAX30100_MODE_CONFIG = m) (hb : m < 256) :
    (startup (shutdown s)).regs MAX30100_MODE_CONFIG = m &&& 0x7F ∧
    (startup (shutdown s)).regs MAX30100_MODE_CONFIG % 128 = m % 128 ∧
    (startup (shutdown s)).regs MAX30100_MODE_CONFIG / 128 = 0 := by
  have e := shutdown_startup_regs s MAX30100_MODE_CONFIG
  have hm' : s.regs 0x09 = m := hm
  rw [if_pos (show MAX30100_MODE_CONFIG = 0x09 from rfl), hm'] at e
  have h := shdn_bits ⟨m, hb⟩
  simp only at h
  rw [e, h.1]
  exact ⟨rfl, h.2.1, h.2.2⟩

/-- C5 at `m = 0x83`: after `shutdown` and `startup` the mode register holds `0x03`. -/
theorem shutdown_startup_mode_witness :
    (startup (shutdown (withReg zeroState MAX30100_MODE_CONFIG 0x83))).regs
      MAX30100_MODE_CONFIG = 0x03 :=
  (shutdown_startup_mode _ 0x83 rfl (by decide)).1.trans (by decide)

/-! ## Sample-rate field (`setSPO2`) -/

/-- C7: for every sample rate and every prior state whose mode register holds the byte
`m`, `setSPO2` leaves the mode register unchanged (no write is addressed to 0x09), its
last write stores `(m & 0xF8) | 0x03` at the SpO2-configuration address 0x0A, and so
the final SpO2-configuration value is determined by `m` alone: any other sample rate and
any other prior state with the same mode byte end with the same value. -/
theorem setSPO2_mode_bits_to_spo2_config (s : State) (sr : sampleRate) (m : Nat)
    (hm : s.regs MAX30100_MODE_CONFIG = m) (hb : m < 256) :
    (setSPO2 s sr).regs MAX30100_MODE_CONFIG = m ∧
    (∀ w ∈ writesOf (issuedBy s.log (setSPO2 s sr).log), w.1 ≠ MAX30100_MODE_CONFIG) ∧
    (writesOf (issuedBy s.log (setSPO2 s sr).log)).getLast? =
      some (MAX30100_SPO2_CONFIG, (m &&& 0xF8) ||| 0x03) ∧
    (setSPO2 s sr).regs MAX30100_SPO2_CONFIG = (m &&& 0xF8) ||| 0x03 ∧
    ∀ (s' : State) (sr' : sampleRate), s'.regs MAX30100_MODE_CONFIG = m →
      (setSPO2 s' sr').regs MAX30100_SPO2_CONFIG = (setSPO2 s sr).regs MAX30100_SPO2_CONFIG := by
  have hm' : s.regs 0x09 = m := hm
  have h := mode_field_bits ⟨m, hb⟩
  simp only at h
  have key : ∀ (t : State) (r : sampleRate), t.regs 0x09 = m →
      (setSPO2 t r).regs MAX30100_SPO2_CONFIG = (m &&& 0xF8) ||| 0x03 := by
    intro t r ht
    rw [setSPO2_regs, if_pos (show MAX30100_SPO2_CONFIG = 0x0A from rfl), ht, h]
  refine ⟨?_, ?_, ?_, key s sr hm', ?_⟩
  · rw [setSPO2_regs, if_neg (by decide)]
    exact hm
  · rw [setSPO2_log, issuedBy_append]
    intro w hw
    simp only [writesOf, List.mem_cons, List.mem_singleton, List.not_mem_nil, or_false] at hw
    rcases hw with hw | hw <;> rw [hw] <;>
      exact (show (0x0A : Nat) ≠ MAX30100_MODE_CONFIG by decide)
  · rw [setSPO2_log, issuedBy_append, hm', h]
    rfl
  · intro s' sr' hs'
    rw [key s' sr' hs', key s sr hm']

/-- C7 at the state left by `begin` (mode register `0x03`): after `setSPO2 sr400` the mode
register still holds `0x03`. -/
theorem setSPO2_mode_bits_to_spo2_config_witness :
    (setSPO2 (begin zeroState pulseWidth.pw1600 ledCurrent.i50 sampleRate.sr100)
      sampleRate.sr400).regs MAX30100_MODE_CONFIG = 0x03 :=
  (setSPO2_mode_bits_to_spo2_config
    (begin zeroState pulseWidth.pw1600 ledCurrent.i50 sampleRate.sr100)
    sampleRate.sr400 0x03 rfl (by decide)).1

/-- C4, evaluated on the state left by `begin` (SpO2 configuration `0x07`, mode `0x03`):
`setSPO2 sr400` first writes `0x13` to the SpO2-configuration register (rate field 4,
other bits kept) and then overwrites it with `0x03`, so the register ends with its rate
field (bits 2-4) equal to 0 and not to 4.  On a state with SpO2 configuration `0x60` and
mode `0x00`, `setSPO2 sr1000` ends with `0x03`: bits 5-7 and bits 0-1 differ from their
prior values as well. -/
theorem setSPO2_rate_field_lost :
    (begin zeroState pulseWidth.pw1600 ledCurrent.i50 sampleRate.sr100).regs
      MAX30100_SPO2_CONFIG = 0x07 ∧
    writesOf (issuedBy (begin zeroState pulseWidth.pw1600 ledCurrent.i50 sampleRate.sr100).log
      (setSPO2 (begin zeroState pulseWidth.pw1600 ledCurrent.i50 sampleRate.sr100)
        sampleRate.sr400).log) = [(0x0A, 0x13), (0x0A, 0x03)] ∧
    (setSPO2 (begin zeroState pulseWidth.pw1600 ledCurrent.i50 sampleRate.sr100)
      sampleRate.sr400).regs MAX30100_SPO2_CONFIG = 0x03 ∧
    ((setSPO2 (begin zeroState pulseWidth.pw1600 ledCurrent.i50 sampleRate.sr100)
      sampleRate.sr400).regs MAX30100_SPO2_CONFIG >>> 2) &&& 0x07 ≠ sampleRate.sr400.toNat ∧
    (setSPO2 (withReg zeroState MAX30100_SPO2_CONFIG 0x60) sampleRate.sr1000).regs
      MAX30100_SPO2_CONFIG = 0x03 ∧
    (0x03 >>> 5 ≠ 0x60 >>> 5 ∧ 0x03 &&& 0x03 ≠ 0x60 &&& 0x03 ∧
      (0x03 >>> 2) &&& 0x07 ≠ sampleRate.sr1000.toNat) := by
  refine ⟨by decide, by decide, by decide, by decide, by decide, by decide⟩

/-! ## Initialisation (`begin`) -/

/-- C6: for every argument triple and every prior state, the writes issued by `begin`
contain a write of 0 to the FIFO write pointer (0x04), then a write of 0 to the overflow
counter (0x05), then a write of 0 to the FIFO read pointer (0x06), in that order; and
`getNumSamp` called right after `begin` returns 0. -/
theorem begin_clears_fifo_pointers (s : State) (pw : pulseWidth) (ir : ledCurrent)
    (sr : sampleRate) :
    List.Sublist
      [(MAX30100_FIFO_WR_PTR, 0x00), (MAX30100_OVRFLOW_CTR, 0x00), (MAX30100_FIFO_RD_PTR, 0x00)]
      (writesOf (issuedBy s.log (begin s pw ir sr).log)) ∧
    (getNumSamp (begin s pw ir sr)).1 = 0 := by
  constructor
  · rw [begin_log, issuedBy_append]
    decide
  · rw [getNumSamp_fst, begin_regs, begin_regs]
    simp [MAX30100_FIFO_WR_PTR, MAX30100_FIFO_RD_PTR]

/-- C10: `begin` ignores its three arguments.  For any two argument triples and any prior
state the resulting states coincide; the transactions issued are the same ten writes in
the same order; afterwards 0x02 = 0xC0, 0x03 = 0x04 = 0x05 = 0x06 = 0x08 = 0x00, the mode
register 0x09 = 0x03, the SpO2 configuration 0x0A = 0x07 (pulse-width field 3, sample-rate
field 1), the LED amplitudes 0x0C = 0x0D = 0x24, and every other register is unchanged. -/
theorem begin_ignores_arguments (s : State) (pw pw' : pulseWidth) (ir ir' : ledCurrent)
    (sr sr' : sampleRate) :
    begin s pw ir sr = begin s pw' ir' sr' ∧
    issuedBy s.log (begin s pw ir sr).log =
      [Txn.write MAX30100_ADDRESS 0x02 0xC0, Txn.write MAX30100_ADDRESS 0x03 0x00,
       Txn.write MAX30100_ADDRESS 0x04 0x00, Txn.write MAX30100_ADDRESS 0x05 0x00,
       Txn.write MAX30100_ADDRESS 0x06 0x00, Txn.write MAX30100_ADDRESS 0x08 0x00,
       Txn.write MAX30100_ADDRESS 0x09 0x03, Txn.write MAX30100_ADDRESS 0x0A 0x07,
       Txn.write MAX30100_ADDRESS 0x0C 0x24, Txn.write MAX30100_ADDRESS 0x0D 0x24] ∧
    issuedBy s.log (begin s pw' ir' sr').log = issuedBy s.log (begin s pw ir sr).log ∧
    (begin s pw ir sr).regs 0x02 = 0xC0 ∧ (begin s pw ir sr).regs 0x03 = 0x00 ∧
    (begin s pw ir sr).regs 0x04 = 0x00 ∧ (begin s pw ir sr).regs 0x05 = 0x00 ∧
    (begin s pw ir sr).regs 0x06 = 0x00 ∧ (begin s pw ir sr).regs 0x08 = 0x00 ∧
    (begin s pw ir sr).regs MAX30100_MODE_CONFIG = 0x03 ∧
    (begin s pw ir sr).regs MAX30100_SPO2_CONFIG = 0x07 ∧
    (begin s pw ir sr).regs MAX30100_SPO2_CONFIG &&& 0x03 = pulseWidth.pw1600.toNat ∧
    ((begin s pw ir sr).regs MAX30100_SPO2_CONFIG >>> 2) &&& 0x07 = sampleRate.sr100.toNat ∧
    (begin s pw ir sr).regs 0x0C = 0x24 ∧ (begin s pw ir sr).regs 0x0D = 0x24 ∧
    ∀ a : Nat, a ∉ [0x02, 0x03, 0x04, 0x05, 0x06, 0x08, 0x09, 0x0A, 0x0C, 0x0D] →
      (begin s pw ir sr).regs a = s.regs a := by
  have hlog : issuedBy s.log (begin s pw ir sr).log =
      [Txn.write MAX30100_ADDRESS 0x02 0xC0, Txn.write MAX30100_ADDRESS 0x03 0x00,
       Txn.write MAX30100_ADDRESS 0x04 0x00, Txn.write MAX30100_ADDRESS 0x05 0x00,
       Txn.write MAX30100_ADDRESS 0x06 0x00, Txn.write MAX30100_ADDRESS 0x08 0x00,
       Txn.write MAX30100_ADDRESS 0x09 0x03, Txn.write MAX30100_ADDRESS 0x0A 0x07,
       Txn.write MAX30100_ADDRESS 0x0C 0x24, Txn.write MAX30100_ADDRESS 0x0D 0x24] := by
    rw [begin_log, issuedBy_append]
    rfl
  have h9 : (begin s pw ir sr).regs MAX30100_MODE_CONFIG = 0x03 := by
    rw [begin_regs]; rfl
  have hA : (begin s pw ir sr).regs MAX30100_SPO2_CONFIG = 0x07 := by
    rw [begin_regs]; rfl
  refine ⟨rfl, hlog, rfl, ?_, ?_, ?_, ?_, ?_, ?_, h9, hA, ?_, ?_, ?_, ?_, ?_⟩
  · rw [begin_regs]; rfl
  · rw [begin_regs]; rfl
  · rw [begin_regs]; rfl
  · rw [begin_regs]; rfl
  · rw [begin_regs]; rfl
  · rw [begin_regs]; rfl
  · rw [hA]; decide
  · rw [hA]; decide
  · rw [begin_regs]; rfl
  · rw [begin_regs]; rfl
  · intro a ha
    simp only [List.mem_cons, List.mem_singleton, List.not_mem_nil, or_false, not_or] at ha
    obtain ⟨h2, h3, h4, h5, h6, h8, h9', hA', hC, hD⟩ := ha
    rw [begin_regs]
    simp only [h2, h3, h4, h5, h6, h8, h9', hA', hC, hD, if_false]

/-- C10 at register 0x0B holding `0x5A`, which `begin` does not address: it still holds
`0x5A` afterwards. -/
theorem begin_ignores_arguments_witness :
    (begin (withReg zeroState 0x0B 0x5A) pulseWidth.pw200 ledCurrent.i0
      sampleRate.sr1000).regs 0x0B = 0x5A :=
  (begin_ignores_arguments (withReg zeroState 0x0B 0x5A) pulseWidth.pw200 pulseWidth.pw1600
    ledCurrent.i0 ledCurrent.i50 sampleRate.sr1000 sampleRate.sr50).2.2.2.2.2.2.2.2.2.2.2.2.2.2.2
    0x0B (by decide)

/-! ## Sample decoding (`readSensor`) -/

/-- C2: for every 6-byte burst `[b0, b1, b2, b3, b4, b5]` delivered by the FIFO-data read,
`readSensor` sets `IR = ((b0 & 0x03) << 16) | (b1 << 8) | b2` and
`RED = ((b3 & 0x03) << 16) | (b4 << 8) | b5`, whatever `IR` and `RED` held before; the
bus traffic is one 6-byte read at the FIFO-data register. -/
theorem readSensor_decodes (s : State) (b0 b1 b2 b3 b4 b5 : Nat)
    (hrx : s.rx.take 6 = [b0, b1, b2, b3, b4, b5])
    (hb : ∀ b ∈ [b0, b1, b2, b3, b4, b5], b < 256) :
    (readSensor s).IR = ((((b0 &&& 0x03) <<< 16) ||| (b1 <<< 8) ||| b2 : Nat) : Int) ∧
    (readSensor s).RED = ((((b3 &&& 0x03) <<< 16) ||| (b4 <<< 8) ||| b5 : Nat) : Int) ∧
    (∀ i r : Int, (readSensor { s with IR := i, RED := r }).IR = (readSensor s).IR ∧
      (readSensor { s with IR := i, RED := r }).RED = (readSensor s).RED) ∧
    issuedBy s.log (readSensor s).log = [Txn.readBytes MAX30100_ADDRESS MAX30100_FIFO_DATA 6] := by
  have h0 : b0 < 256 := hb b0 (by simp)
  have h1 : b1 < 256 := hb b1 (by simp)
  have h2 : b2 < 256 := hb b2 (by simp)
  have h3 : b3 < 256 := hb b3 (by simp)
  have h4 : b4 < 256 := hb b4 (by simp)
  have h5 : b5 < 256 := hb b5 (by simp)
  have e := readSensor_fields s b0 b1 b2 b3 b4 b5 hrx
  rw [Nat.mod_eq_of_lt h0, Nat.mod_eq_of_lt h1, Nat.mod_eq_of_lt h2, Nat.mod_eq_of_lt h3,
    Nat.mod_eq_of_lt h4, Nat.mod_eq_of_lt h5] at e
  have l1 := sample_lt b0 b1 b2 h1 h2
  have l2 := sample_lt b3 b4 b5 h4 h5
  rw [toLong_of_lt _ (by omega), toLong_of_lt _ (by omega)] at e
  refine ⟨e.1, e.2, fun i r => ⟨rfl, rfl⟩, ?_⟩
  have hl : (readSensor s).log =
      s.log ++ [Txn.readBytes MAX30100_ADDRESS MAX30100_FIFO_DATA 6] := rfl
  rw [hl, issuedBy_append]

/-- C2 at the burst `[0x02, 0xAB, 0xCD, 0x01, 0x23, 0x45]` of the specification:
`IR = 0x02ABCD` and `RED = 0x012345`, with stale values `IR = 7`, `RED = 9` replaced. -/
theorem readSensor_decodes_witness :
    (readSensor burstState).IR = 0x02ABCD ∧ (readSensor burstState).RED = 0x012345 :=
  ⟨(readSensor_decodes burstState 0x02 0xAB 0xCD 0x01 0x23 0x45 rfl
      (by decide)).1.trans (by decide),
   (readSensor_decodes burstState 0x02 0xAB 0xCD 0x01 0x23 0x45 rfl
      (by decide)).2.1.trans (by decide)⟩

end MAX30100
